import Mathlib

/-
Verification of the staged trading pipeline
(backend/app/agents + backend/app/services) against its specification.

Numeric values in the Python source are floats; they are modelled here as
exact rationals (ℚ), which matches the real-number arithmetic the
specification states.  Python `datetime` values are modelled as integer
day stamps (ℤ); `timedelta(days = 1)` is `+ 1`.
-/

set_option autoImplicit false

namespace Trading

/-- Trading actions (the `Decision` enum in `decision_agent.py`). -/
inductive Action
  | BUY
  | SELL
  | HOLD
  deriving DecidableEq, Repr

/-- A prediction as produced by `MarketMonitoringAgent` and consumed by
`DecisionMakingAgent.make_rule_based_decision`.  Only the keys the decision
agent reads are modelled; `rsi` is `technical_indicators["RSI"]`. -/
structure Prediction where
  symbol : String
  status : String
  predicted_change_percent : ℚ
  confidence : ℚ
  rsi : ℚ
  deriving DecidableEq, Repr

/-- The distinct strings appended to the `reasons` list of a rule-based
decision, one constructor per `reasons.append(...)` site in the source
(the numeric interpolations of the f-strings are dropped). -/
inductive Reason
  | noPrediction
  | mlPredictsGain
  | rsiNotOverbought
  | overboughtCondition
  | mlPredictsLoss
  | rsiNotOversold
  | oversoldCondition
  | belowThresholdOrLowConfidence
  | predictedChangeNote
  deriving DecidableEq, Repr

/-- The dict returned by `make_rule_based_decision`.  The early-return dict
for a missing prediction carries a single reason string; it is modelled with
`reasons = [.noPrediction]` and zero defaults for the keys it omits. -/
structure DecisionRecord where
  symbol : String
  decision : Action
  confidence : ℚ
  reasons : List Reason
  predicted_change : ℚ
  pred_confidence : ℚ
  method : String
  deriving DecidableEq, Repr

/-- `DecisionMakingAgent.make_rule_based_decision` (decision_agent.py,
lines 75-141). -/
def makeRuleBasedDecision (risk_tolerance : ℚ) (p : Prediction) : DecisionRecord :=
  if p.status ≠ "predicted" then
    { symbol := p.symbol, decision := .HOLD, confidence := 0,
      reasons := [.noPrediction], predicted_change := 0, pred_confidence := 0,
      method := "rule_based" }
  else
    let predicted_change := p.predicted_change_percent
    let pred_confidence := p.confidence
    let rsi := p.rsi
    let buy_threshold : ℚ := 1 - risk_tolerance * (9/10)
    let sell_threshold : ℚ := -1 + risk_tolerance * (9/10)
    let min_confidence : ℚ := 6/10 - risk_tolerance * (2/10)
    if predicted_change > buy_threshold ∧ pred_confidence ≥ min_confidence then
      if rsi < 70 then
        { symbol := p.symbol, decision := .BUY, confidence := pred_confidence,
          reasons := [.mlPredictsGain, .rsiNotOverbought],
          predicted_change := predicted_change,
          pred_confidence := pred_confidence, method := "rule_based" }
      else
        { symbol := p.symbol, decision := .HOLD, confidence := 1/2,
          reasons := [.overboughtCondition],
          predicted_change := predicted_change,
          pred_confidence := pred_confidence, method := "rule_based" }
    else if predicted_change < sell_threshold ∧ pred_confidence ≥ min_confidence then
      if rsi > 30 then
        { symbol := p.symbol, decision := .SELL, confidence := pred_confidence,
          reasons := [.mlPredictsLoss, .rsiNotOversold],
          predicted_change := predicted_change,
          pred_confidence := pred_confidence, method := "rule_based" }
      else
        { symbol := p.symbol, decision := .HOLD, confidence := 1/2,
          reasons := [.oversoldCondition],
          predicted_change := predicted_change,
          pred_confidence := pred_confidence, method := "rule_based" }
    else
      { symbol := p.symbol, decision := .HOLD, confidence := 1/2,
        reasons := [.belowThresholdOrLowConfidence, .predictedChangeNote],
        predicted_change := predicted_change,
        pred_confidence := pred_confidence, method := "rule_based" }

/-- The dict returned by `DecisionMakingAgent.get_thresholds`
(decision_agent.py, lines 44-53). -/
structure Thresholds where
  risk_tolerance : ℚ
  buy_threshold_percent : ℚ
  sell_threshold_percent : ℚ
  min_confidence : ℚ
  deriving DecidableEq, Repr

/-- `DecisionMakingAgent.get_thresholds`. -/
def getThresholds (risk_tolerance : ℚ) : Thresholds :=
  { risk_tolerance := risk_tolerance
    buy_threshold_percent := 1 - risk_tolerance * (9/10)
    sell_threshold_percent := -1 + risk_tolerance * (9/10)
    min_confidence := 6/10 - risk_tolerance * (2/10) }

/-- C9: for all r ∈ [0,1], buy_threshold(r) = 1.0 − 0.9r,
sell_threshold(r) = −1.0 + 0.9r, min_confidence(r) = 0.6 − 0.2r, and
buy_threshold(r) > sell_threshold(r). -/
theorem thresholds_spec (r : ℚ) (h0 : 0 ≤ r) (h1 : r ≤ 1) :
    (getThresholds r).buy_threshold_percent = 1 - (9/10) * r ∧
    (getThresholds r).sell_threshold_percent = -1 + (9/10) * r ∧
    (getThresholds r).min_confidence = 6/10 - (2/10) * r ∧
    (getThresholds r).sell_threshold_percent
      < (getThresholds r).buy_threshold_percent := by
  refine ⟨by simp [getThresholds]; ring, by simp [getThresholds]; ring,
    by simp [getThresholds]; ring, ?_⟩
  simp only [getThresholds]
  linarith

/-- Witness for C9 at r = 1/2. -/
theorem thresholds_spec_witness :
    (0 : ℚ) ≤ 1/2 ∧ (1/2 : ℚ) ≤ 1 ∧
    ((getThresholds (1/2)).buy_threshold_percent = 1 - (9/10) * (1/2) ∧
     (getThresholds (1/2)).sell_threshold_percent = -1 + (9/10) * (1/2) ∧
     (getThresholds (1/2)).min_confidence = 6/10 - (2/10) * (1/2) ∧
     (getThresholds (1/2)).sell_threshold_percent
       < (getThresholds (1/2)).buy_threshold_percent) :=
  ⟨by norm_num, by norm_num, thresholds_spec (1/2) (by norm_num) (by norm_num)⟩

/-- C1: for a prediction with status "predicted" and risk tolerance
r ∈ [0,1], the rule-based decision is BUY iff
predicted_change > 1 − 0.9r ∧ confidence ≥ 0.6 − 0.2r ∧ RSI < 70,
SELL iff predicted_change < −1 + 0.9r ∧ confidence ≥ 0.6 − 0.2r ∧ RSI > 30,
otherwise HOLD; it is never BUY at RSI ≥ 70 and never SELL at RSI ≤ 30;
and when a numeric BUY (resp. SELL) signal is blocked by the RSI guard the
decision is HOLD with the overbought (resp. oversold) guard in the
reasons. -/
theorem rule_based_decision_spec (r : ℚ) (p : Prediction)
    (hs : p.status = "predicted") (h0 : 0 ≤ r) (h1 : r ≤ 1) :
    ((makeRuleBasedDecision r p).decision = .BUY ↔
      (p.predicted_change_percent > 1 - (9/10) * r ∧
       p.confidence ≥ 6/10 - (2/10) * r ∧ p.rsi < 70)) ∧
    ((makeRuleBasedDecision r p).decision = .SELL ↔
      (p.predicted_change_percent < -1 + (9/10) * r ∧
       p.confidence ≥ 6/10 - (2/10) * r ∧ p.rsi > 30)) ∧
    ((makeRuleBasedDecision r p).decision = .HOLD ↔
      (¬(p.predicted_change_percent > 1 - (9/10) * r ∧
         p.confidence ≥ 6/10 - (2/10) * r ∧ p.rsi < 70) ∧
       ¬(p.predicted_change_percent < -1 + (9/10) * r ∧
         p.confidence ≥ 6/10 - (2/10) * r ∧ p.rsi > 30))) ∧
    (70 ≤ p.rsi → (makeRuleBasedDecision r p).decision ≠ .BUY) ∧
    (p.rsi ≤ 30 → (makeRuleBasedDecision r p).decision ≠ .SELL) ∧
    (p.predicted_change_percent > 1 - (9/10) * r →
      p.confidence ≥ 6/10 - (2/10) * r → 70 ≤ p.rsi →
      (makeRuleBasedDecision r p).decision = .HOLD ∧
      Reason.overboughtCondition ∈ (makeRuleBasedDecision r p).reasons) ∧
    (p.predicted_change_percent < -1 + (9/10) * r →
      p.confidence ≥ 6/10 - (2/10) * r → p.rsi ≤ 30 →
      (makeRuleBasedDecision r p).decision = .HOLD ∧
      Reason.oversoldCondition ∈ (makeRuleBasedDecision r p).reasons) := by
  have hthresh : (-1 : ℚ) + r * (9/10) < 1 - r * (9/10) := by linarith
  simp only [makeRuleBasedDecision, hs, ne_eq, not_true_eq_false, if_false]
  have hmul : r * (9/10) = (9/10) * r := by ring
  have hmul2 : r * (2/10) = (2/10) * r := by ring
  rw [hmul, hmul2]
  split_ifs with hA hR hB hS <;>
    simp_all <;>
    constructor <;> intro h <;> try constructor
  all_goals linarith [hA.1, hA.2]

/-- Witness for C1 at the spec scenario: RSI = 75, predicted_change = +2%,
confidence 0.6, r = 0.5 yields HOLD with the overbought guard among the
reasons. -/
theorem rule_based_decision_spec_witness :
    let p : Prediction :=
      { symbol := "AAPL", status := "predicted",
        predicted_change_percent := 2, confidence := 6/10, rsi := 75 }
    (makeRuleBasedDecision (1/2) p).decision = Action.HOLD ∧
    Reason.overboughtCondition ∈ (makeRuleBasedDecision (1/2) p).reasons :=
  (rule_based_decision_spec (1/2)
    { symbol := "AAPL", status := "predicted",
      predicted_change_percent := 2, confidence := 6/10, rsi := 75 }
    rfl (by norm_num) (by norm_num)).2.2.2.2.2.1
    (by norm_num) (by norm_num) (by norm_num)

/-- C8 counterexample: a prediction whose status is not "predicted" yields a
HOLD decision whose confidence is 0.0, not the claimed neutral 0.5. -/
theorem rule_based_confidence_claim_false :
    (makeRuleBasedDecision (1/2)
      { symbol := "AAPL", status := "error",
        predicted_change_percent := 0, confidence := 0, rsi := 50 }).decision
      = Action.HOLD ∧
    (makeRuleBasedDecision (1/2)
      { symbol := "AAPL", status := "error",
        predicted_change_percent := 0, confidence := 0, rsi := 50 }).confidence
      ≠ 1/2 := by
  constructor <;> simp [makeRuleBasedDecision]

/-- C8 (amended): for predictions with status "predicted", the rule-based
decision's confidence equals the prediction's confidence when the decision
is BUY or SELL and equals 0.5 when it is HOLD; for any other status the
decision is HOLD with confidence 0.0. -/
theorem rule_based_confidence (r : ℚ) (p : Prediction) :
    (p.status = "predicted" →
      (((makeRuleBasedDecision r p).decision = Action.BUY ∨
        (makeRuleBasedDecision r p).decision = Action.SELL) →
        (makeRuleBasedDecision r p).confidence = p.confidence) ∧
      ((makeRuleBasedDecision r p).decision = Action.HOLD →
        (makeRuleBasedDecision r p).confidence = 1/2)) ∧
    (p.status ≠ "predicted" →
      (makeRuleBasedDecision r p).decision = Action.HOLD ∧
      (makeRuleBasedDecision r p).confidence = 0) := by
  constructor
  · intro hs
    simp only [makeRuleBasedDecision, hs, ne_eq, not_true_eq_false, if_false]
    split_ifs <;> simp
  · intro hs
    simp [makeRuleBasedDecision, hs]

/-- Witness for C8 (amended): a BUY decision whose confidence equals the
prediction's confidence. -/
theorem rule_based_confidence_witness :
    (makeRuleBasedDecision (1/2)
      { symbol := "AAPL", status := "predicted",
        predicted_change_percent := 2, confidence := 6/10, rsi := 50 }).confidence
      = 6/10 :=
  ((rule_based_confidence (1/2)
      { symbol := "AAPL", status := "predicted",
        predicted_change_percent := 2, confidence := 6/10, rsi := 50 }).1
    rfl).1 (Or.inl (by norm_num [makeRuleBasedDecision]))

/-- A prediction dict as returned by
`MarketMonitoringAgent.predict_price_movement` (market_agent.py,
lines 432-491); error returns carry a `message` and omit the numeric keys
(modelled with zero defaults). -/
structure MarketPrediction where
  symbol : String
  status : String
  message : Option String := none
  current_price : ℚ := 0
  predicted_change_percent : ℚ := 0
  predicted_price : ℚ := 0
  direction : String := ""
  confidence : ℚ := 0
  deriving DecidableEq, Repr

/-- `MarketMonitoringAgent.predict_price_movement`.  The fitted regressor
applied to the scaled latest feature row is abstracted as `model_output`
(the value of `self.price_model.predict(features_scaled)[0]`);
`n_bars` is `len(df)` after loading, and `indicators_nonempty` is whether
the indicator frame is nonempty after `dropna()`. -/
def predictPriceMovement (is_trained : Bool) (n_bars : ℕ)
    (indicators_nonempty : Bool) (model_output : ℚ) (current_price : ℚ)
    (symbol : String) : MarketPrediction :=
  if !is_trained then
    { symbol := symbol, status := "error",
      message := some "Model not trained yet" }
  else if n_bars < 30 then
    { symbol := symbol, status := "error",
      message := some "Insufficient data" }
  else if !indicators_nonempty then
    { symbol := symbol, status := "error",
      message := some "Error calculating indicators" }
  else
    let predicted_change := model_output
    let predicted_price := current_price * (1 + predicted_change / 100)
    let confidence : ℚ := min (95/100) (1/2 + |predicted_change| / 20)
    let direction : String :=
      if predicted_change > 1 then "UP"
      else if predicted_change < -1 then "DOWN"
      else "STABLE"
    { symbol := symbol, status := "predicted", current_price := current_price,
      predicted_change_percent := predicted_change,
      predicted_price := predicted_price, direction := direction,
      confidence := confidence }

/-- C7: inference errors with "Model not trained yet" before training,
errors with "Insufficient data" below 30 bars, and on success
predicted_price = current_price × (1 + pct/100),
confidence = min(0.95, 0.5 + |pct|/20) ∈ [0.5, 0.95], and direction is UP
iff pct > 1, DOWN iff pct < −1, else STABLE. -/
theorem predict_price_movement_spec (t ind : Bool) (n : ℕ) (pct cp : ℚ)
    (s : String) :
    (t = false →
      (predictPriceMovement t n ind pct cp s).status = "error" ∧
      (predictPriceMovement t n ind pct cp s).message
        = some "Model not trained yet") ∧
    (t = true → n < 30 →
      (predictPriceMovement t n ind pct cp s).status = "error" ∧
      (predictPriceMovement t n ind pct cp s).message
        = some "Insufficient data") ∧
    ((predictPriceMovement t n ind pct cp s).status = "predicted" →
      (predictPriceMovement t n ind pct cp s).predicted_change_percent = pct ∧
      (predictPriceMovement t n ind pct cp s).predicted_price
        = cp * (1 + pct / 100) ∧
      (predictPriceMovement t n ind pct cp s).confidence
        = min (95/100) (1/2 + |pct| / 20) ∧
      1/2 ≤ (predictPriceMovement t n ind pct cp s).confidence ∧
      (predictPriceMovement t n ind pct cp s).confidence ≤ 95/100 ∧
      ((predictPriceMovement t n ind pct cp s).direction = "UP" ↔ pct > 1) ∧
      ((predictPriceMovement t n ind pct cp s).direction = "DOWN" ↔ pct < -1) ∧
      ((predictPriceMovement t n ind pct cp s).direction = "STABLE" ↔
        (pct ≤ 1 ∧ -1 ≤ pct))) := by
  have habs : (0:ℚ) ≤ |pct| := abs_nonneg pct
  have hconf_lo : (1:ℚ)/2 ≤ min (95/100) (1/2 + |pct| / 20) :=
    le_min (by norm_num) (by linarith)
  have hconf_hi : min ((95:ℚ)/100) (1/2 + |pct| / 20) ≤ 95/100 :=
    min_le_left _ _
  refine ⟨?_, ?_, ?_⟩
  · intro ht
    subst ht
    simp [predictPriceMovement]
  · intro ht h30
    subst ht
    simp [predictPriceMovement, h30]
  · intro hpred
    cases t with
    | false => simp [predictPriceMovement] at hpred
    | true =>
      by_cases h30 : n < 30
      · simp [predictPriceMovement, h30] at hpred
      · cases ind with
        | false => simp [predictPriceMovement, h30] at hpred
        | true =>
          have hEq : predictPriceMovement true n true pct cp s =
              { symbol := s, status := "predicted", current_price := cp,
                predicted_change_percent := pct,
                predicted_price := cp * (1 + pct / 100),
                direction := if pct > 1 then "UP"
                  else if pct < -1 then "DOWN" else "STABLE",
                confidence := min (95/100) (1/2 + |pct| / 20) } := by
            simp [predictPriceMovement, h30]
          have hUP : ((if pct > 1 then "UP"
              else if pct < -1 then "DOWN" else "STABLE") : String) = "UP"
              ↔ pct > 1 := by
            split_ifs with h1 h2 <;> simp_all <;> intros <;> linarith
          have hDOWN : ((if pct > 1 then "UP"
              else if pct < -1 then "DOWN" else "STABLE") : String) = "DOWN"
              ↔ pct < -1 := by
            split_ifs with h1 h2 <;> simp_all <;> intros <;> linarith
          have hSTABLE : ((if pct > 1 then "UP"
              else if pct < -1 then "DOWN" else "STABLE") : String) = "STABLE"
              ↔ (pct ≤ 1 ∧ -1 ≤ pct) := by
            split_ifs with h1 h2 <;> simp_all <;> intros <;> linarith
          rw [hEq]
          exact ⟨rfl, rfl, rfl, hconf_lo, hconf_hi, hUP, hDOWN, hSTABLE⟩

/-- Witness for C7: a successful prediction with pct = 4, price = 100 gives
predicted price 104, confidence 0.7, direction UP; and before training the
error status is reported. -/
theorem predict_price_movement_spec_witness :
    ((predictPriceMovement true 40 true 4 100 "AAPL").status = "predicted" →
      (predictPriceMovement true 40 true 4 100 "AAPL").predicted_change_percent
        = 4 ∧
      (predictPriceMovement true 40 true 4 100 "AAPL").predicted_price
        = 100 * (1 + 4 / 100) ∧
      (predictPriceMovement true 40 true 4 100 "AAPL").confidence
        = min (95/100) (1/2 + |(4:ℚ)| / 20) ∧
      1/2 ≤ (predictPriceMovement true 40 true 4 100 "AAPL").confidence ∧
      (predictPriceMovement true 40 true 4 100 "AAPL").confidence ≤ 95/100 ∧
      ((predictPriceMovement true 40 true 4 100 "AAPL").direction = "UP" ↔
        (4:ℚ) > 1) ∧
      ((predictPriceMovement true 40 true 4 100 "AAPL").direction = "DOWN" ↔
        (4:ℚ) < -1) ∧
      ((predictPriceMovement true 40 true 4 100 "AAPL").direction = "STABLE" ↔
        ((4:ℚ) ≤ 1 ∧ -1 ≤ (4:ℚ)))) ∧
    (predictPriceMovement true 40 true 4 100 "AAPL").status = "predicted" ∧
    (predictPriceMovement false 40 true 4 100 "AAPL").message
      = some "Model not trained yet" :=
  ⟨(predict_price_movement_spec true true 40 4 100 "AAPL").2.2,
   by norm_num [predictPriceMovement],
   ((predict_price_movement_spec false true 40 4 100 "AAPL").1 rfl).2⟩

/-- Python `int(...)` applied to a rational: truncation toward zero. -/
def truncToInt (q : ℚ) : ℤ :=
  if 0 ≤ q then ⌊q⌋ else -⌊-q⌋

/-- `ExecutionAgent._calculate_position_size` (execution_agent.py,
lines 161-185).  `cash` is `get_portfolio_summary()["cash"]` when a user
portfolio is bound (`self.user_id` and `self.db_session` set), `none`
otherwise. -/
def calculatePositionSize (cash : Option ℚ) (confidence price : ℚ) : ℤ :=
  match cash with
  | none => 1
  | some capital =>
    let max_risk_per_trade := capital * (1/10)
    let confidence_factor := 1/2 + confidence * (1/2)
    let position_value := max_risk_per_trade * confidence_factor
    let position_value := max position_value 1000
    let shares := truncToInt (position_value / price)
    max shares 1

/-- C2: position sizes are ≥ 1 shares; the target notional is
max(0.10 × cash × (0.5 + 0.5c), 1000) converted to whole shares by rounding
down; shares × price exceeds min(1000, 0.10 × cash × (0.5 + 0.5c)) minus
one share's worth of rounding; with no portfolio context the size is 1;
and cash = 10000, confidence = 0.8, price = 50 gives exactly 20 shares. -/
theorem position_size_spec (c p cash : ℚ) (hc0 : 0 ≤ c) (hc1 : c ≤ 1)
    (hp : 0 < p) :
    calculatePositionSize none c p = 1 ∧
    1 ≤ calculatePositionSize (some cash) c p ∧
    calculatePositionSize (some cash) c p
      = max (truncToInt ((max (cash * (1/10) * (1/2 + c * (1/2))) 1000) / p)) 1 ∧
    ((calculatePositionSize (some cash) c p : ℚ) * p
      > min 1000 (cash * (1/10) * (1/2 + c * (1/2))) - p) ∧
    calculatePositionSize (some 10000) (8/10) 50 = 20 := by
  have hpv1000 : (1000:ℚ) ≤ max (cash * (1/10) * (1/2 + c * (1/2))) 1000 :=
    le_max_right _ _
  set A := cash * (1/10) * (1/2 + c * (1/2)) with hA
  set pv := max A 1000 with hpv
  have hpvpos : (0:ℚ) < pv := lt_of_lt_of_le (by norm_num) hpv1000
  have hqnn : (0:ℚ) ≤ pv / p := le_of_lt (div_pos hpvpos hp)
  have htrunc : truncToInt (pv / p) = ⌊pv / p⌋ := if_pos hqnn
  have hshares : calculatePositionSize (some cash) c p = max ⌊pv / p⌋ 1 := by
    simp only [calculatePositionSize, ← hA, ← hpv, htrunc]
  refine ⟨rfl, ?_, ?_, ?_,
    by norm_num [calculatePositionSize, truncToInt, max_def]⟩
  · rw [hshares]; exact le_max_right _ _
  · simp only [calculatePositionSize, ← hA, ← hpv]
  · rw [hshares]
    have hfloor : pv / p - 1 < ((⌊pv / p⌋ : ℤ) : ℚ) := Int.sub_one_lt_floor _
    have hcast : ((⌊pv / p⌋ : ℤ) : ℚ) ≤ ((max ⌊pv / p⌋ 1 : ℤ) : ℚ) := by
      exact_mod_cast le_max_left _ _
    have hmulpv : (pv / p) * p = pv := div_mul_cancel₀ pv (ne_of_gt hp)
    have hstep : pv - p < ((max ⌊pv / p⌋ 1 : ℤ) : ℚ) * p := by
      have := mul_lt_mul_of_pos_right
        (lt_of_lt_of_le hfloor hcast) hp
      calc pv - p = (pv / p - 1) * p := by rw [sub_mul, one_mul, hmulpv]
        _ < _ := this
    have hminle : min (1000:ℚ) A ≤ pv :=
      le_trans (min_le_left _ _) hpv1000
    linarith

/-- Witness for C2 at confidence 0.8, price 50, cash 10000. -/
theorem position_size_spec_witness :
    (0:ℚ) ≤ 8/10 ∧ (8/10:ℚ) ≤ 1 ∧ (0:ℚ) < 50 ∧
    (calculatePositionSize none (8/10) 50 = 1 ∧
     1 ≤ calculatePositionSize (some 10000) (8/10) 50 ∧
     calculatePositionSize (some 10000) (8/10) 50
       = max (truncToInt ((max ((10000:ℚ) * (1/10) * (1/2 + (8/10) * (1/2))) 1000) / 50)) 1 ∧
     ((calculatePositionSize (some 10000) (8/10) 50 : ℚ) * 50
       > min 1000 ((10000:ℚ) * (1/10) * (1/2 + (8/10) * (1/2))) - 50) ∧
     calculatePositionSize (some 10000) (8/10) 50 = 20) :=
  ⟨by norm_num, by norm_num, by norm_num,
   position_size_spec (8/10) 50 10000 (by norm_num) (by norm_num) (by norm_num)⟩

/-- One position of the portfolio's positions dict
(`positions[symbol]` in portfolio_service.py). -/
structure Position where
  shares : ℕ
  avg_price : ℚ
  buy_date : ℤ
  deriving DecidableEq, Repr

/-- A transaction-log entry; `profit_loss` keys are present only on SELL
entries. -/
structure Transaction where
  type : String
  symbol : String
  shares : ℕ
  price : ℚ
  total : ℚ
  profit_loss : Option ℚ := none
  profit_loss_pct : Option ℚ := none
  timestamp : ℤ
  deriving DecidableEq, Repr

/-- A `UserPortfolio` row: cash, the positions dict (as an association
list keyed by symbol) and the transaction log. -/
structure Portfolio where
  cash : ℚ
  positions : List (String × Position)
  transactions : List Transaction
  deriving DecidableEq, Repr

/-- `positions[symbol] = pos` on an association list: replace the binding
if the key is present, append it otherwise (Python dict update). -/
def setPosition (ps : List (String × Position)) (sym : String)
    (pos : Position) : List (String × Position) :=
  if ps.any (fun kv => kv.1 == sym) then
    ps.map (fun kv => if kv.1 == sym then (sym, pos) else kv)
  else
    ps ++ [(sym, pos)]

/-- `del positions[symbol]` on an association list. -/
def removePosition (ps : List (String × Position)) (sym : String) :
    List (String × Position) :=
  ps.filter (fun kv => kv.1 ≠ sym)

/-- The domain errors `buy_stock` / `sell_stock` raise as `ValueError`s. -/
inductive LedgerError
  | portfolioNotFound
  | insufficientFunds
  | noPosition
  | insufficientShares
  deriving DecidableEq, Repr

/-- The result dict of a successful `buy_stock`. -/
structure BuyResult where
  shares : ℕ
  price : ℚ
  total_cost : ℚ
  remaining_cash : ℚ
  deriving DecidableEq, Repr

/-- `UserPortfolioService.buy_stock` (portfolio_service.py, lines 27-93).
The `Portfolio not found` check is modelled by the caller passing the row;
`now` stands for `datetime.now()`. -/
def buyStock (p : Portfolio) (sym : String) (shares : ℕ) (price : ℚ)
    (now : ℤ) : Except LedgerError (Portfolio × BuyResult) :=
  let cost : ℚ := shares * price
  if p.cash < cost then
    .error .insufficientFunds
  else
    let positions :=
      match p.positions.lookup sym with
      | some pos =>
        let total_shares := pos.shares + shares
        let total_cost := pos.shares * pos.avg_price + cost
        let avg_price := total_cost / total_shares
        setPosition p.positions sym
          { shares := total_shares, avg_price := avg_price,
            buy_date := pos.buy_date }
      | none =>
        setPosition p.positions sym
          { shares := shares, avg_price := price, buy_date := now }
    let cash := p.cash - cost
    let tx : Transaction :=
      { type := "BUY", symbol := sym, shares := shares, price := price,
        total := cost, timestamp := now }
    .ok ({ cash := cash, positions := positions,
           transactions := p.transactions ++ [tx] },
         { shares := shares, price := price, total_cost := cost,
           remaining_cash := cash })

/-- The result dict of a successful `sell_stock`. -/
structure SellResult where
  shares : ℕ
  price : ℚ
  total_revenue : ℚ
  profit_loss : ℚ
  profit_loss_pct : ℚ
  remaining_cash : ℚ
  deriving DecidableEq, Repr

/-- `UserPortfolioService.sell_stock` (portfolio_service.py,
lines 95-165).  The `profit_loss_pct` division is total (ℚ) where Python
would raise `ZeroDivisionError` on a zero cost basis; the theorems assume a
positive cost basis. -/
def sellStock (p : Portfolio) (sym : String) (shares : ℕ) (price : ℚ)
    (now : ℤ) : Except LedgerError (Portfolio × SellResult) :=
  match p.positions.lookup sym with
  | none => .error .noPosition
  | some pos =>
    if pos.shares < shares then
      .error .insufficientShares
    else
      let revenue : ℚ := shares * price
      let cash := p.cash + revenue
      let positions :=
        if pos.shares = shares then
          removePosition p.positions sym
        else
          setPosition p.positions sym
            { shares := pos.shares - shares, avg_price := pos.avg_price,
              buy_date := pos.buy_date }
      let profit_loss : ℚ := revenue - shares * pos.avg_price
      let profit_loss_pct : ℚ := profit_loss / (shares * pos.avg_price) * 100
      let tx : Transaction :=
        { type := "SELL", symbol := sym, shares := shares, price := price,
          total := revenue, profit_loss := some profit_loss,
          profit_loss_pct := some profit_loss_pct, timestamp := now }
      .ok ({ cash := cash, positions := positions,
             transactions := p.transactions ++ [tx] },
           { shares := shares, price := price, total_revenue := revenue,
             profit_loss := profit_loss, profit_loss_pct := profit_loss_pct,
             remaining_cash := cash })

/-- Helper: looking up a key just set. -/
theorem lookup_setPosition_self (ps : List (String × Position))
    (sym : String) (pos : Position) :
    (setPosition ps sym pos).lookup sym = some pos := by
  unfold setPosition
  split_ifs with h
  · induction ps with
    | nil => simp at h
    | cons kv tl ih =>
      obtain ⟨k, v⟩ := kv
      by_cases hk : k = sym
      · simp [List.lookup_cons, hk]
      · have h' : (tl.any fun kv => kv.1 == sym) = true := by
          simpa [hk] using h
        have hbeq : (sym == k) = false :=
          beq_eq_false_iff_ne.mpr (Ne.symm hk)
        simpa [List.lookup_cons, hk, hbeq] using ih h'
  · induction ps with
    | nil => simp [List.lookup_cons]
    | cons kv tl ih =>
      obtain ⟨k, v⟩ := kv
      simp only [List.any_cons, Bool.or_eq_true, beq_iff_eq] at h
      push_neg at h
      have h2 : ¬ (tl.any fun kv => kv.1 == sym) = true := by
        simpa using h.2
      have hbeq : (sym == k) = false :=
        beq_eq_false_iff_ne.mpr (Ne.symm h.1)
      simp [List.lookup_cons, hbeq, ih h2]

/-- C4: a successful BUY into a symbol already held leaves a position with
summed shares, volume-weighted average price and the original buy_date, and
debits cash by exactly shares × price. -/
theorem buy_stock_averaging (p : Portfolio) (sym : String) (old : Position)
    (shares : ℕ) (price : ℚ) (now : ℤ)
    (hpos : p.positions.lookup sym = some old)
    (hcash : ¬ p.cash < shares * price) :
    ∃ p' res, buyStock p sym shares price now = .ok (p', res) ∧
      p'.positions.lookup sym = some
        { shares := old.shares + shares,
          avg_price := (old.shares * old.avg_price + shares * price)
            / (old.shares + shares : ℕ),
          buy_date := old.buy_date } ∧
      p'.cash = p.cash - shares * price := by
  have hEq : buyStock p sym shares price now = .ok
      ({ cash := p.cash - shares * price,
         positions := setPosition p.positions sym
           { shares := old.shares + shares,
             avg_price := (old.shares * old.avg_price + shares * price)
               / (old.shares + shares : ℕ),
             buy_date := old.buy_date },
         transactions := p.transactions ++
           [{ type := "BUY", symbol := sym, shares := shares, price := price,
              total := shares * price, timestamp := now }] },
       { shares := shares, price := price, total_cost := shares * price,
         remaining_cash := p.cash - shares * price }) := by
    simp [buyStock, hpos, hcash]
  exact ⟨_, _, hEq, lookup_setPosition_self _ _ _, rfl⟩

/-- Witness for C4 at the spec scenario: BUY 10 @ $100 into a fresh $10000
portfolio, then BUY 10 @ $120; the held position becomes 20 shares at
average price $110 with the first buy's date, and cash drops to $7800. -/
theorem buy_stock_averaging_witness :
    let p1 : Portfolio :=
      { cash := 9000,
        positions :=
          [("AAPL", { shares := 10, avg_price := 100, buy_date := 0 })],
        transactions :=
          [{ type := "BUY", symbol := "AAPL", shares := 10, price := 100,
             total := 1000, timestamp := 0 }] }
    (buyStock { cash := 10000, positions := [], transactions := [] }
        "AAPL" 10 100 0
      = .ok (p1, { shares := 10, price := 100, total_cost := 1000,
                   remaining_cash := 9000 })) ∧
    p1.positions.lookup "AAPL"
      = some { shares := 10, avg_price := 100, buy_date := 0 } ∧
    ¬ p1.cash < (10:ℕ) * (120:ℚ) ∧
    (∃ p2 res2, buyStock p1 "AAPL" 10 120 1 = .ok (p2, res2) ∧
      p2.positions.lookup "AAPL" = some
        { shares := 10 + 10,
          avg_price := ((10:ℕ) * (100:ℚ) + (10:ℕ) * (120:ℚ))
            / ((10 + 10 : ℕ)),
          buy_date := 0 } ∧
      p2.cash = p1.cash - (10:ℕ) * (120:ℚ)) :=
  ⟨by norm_num [buyStock, setPosition],
   by norm_num [List.lookup],
   by norm_num,
   buy_stock_averaging _ "AAPL"
     { shares := 10, avg_price := 100, buy_date := 0 } 10 120 1
     (by norm_num [List.lookup]) (by norm_num)⟩

/-- The `OrderStatus` enum of execution_agent.py. -/
inductive OrderStatus
  | PENDING
  | EXECUTED
  | FAILED
  | CANCELLED
  deriving DecidableEq, Repr

/-- The distinct `reason` strings a buy/sell outcome dict can carry, one
constructor per source string. -/
inductive ExecReason
  | noPortfolioConfigured
  | noPositionToSell
  | ledgerRejected (e : LedgerError)
  | holdNoTrade
  deriving DecidableEq, Repr

/-- The keys `_execute_buy` / `_execute_sell` (or the HOLD branch) merge
into the execution record; keys a branch omits default to zero/none. -/
structure ExecOutcome where
  action_taken : String
  status : OrderStatus
  reason : Option ExecReason := none
  shares : ℕ := 0
  avg_entry_price : ℚ := 0
  exit_price : ℚ := 0
  total : ℚ := 0
  profit_loss : ℚ := 0
  profit_loss_percent : ℚ := 0
  remaining_capital : ℚ := 0
  deriving DecidableEq, Repr

/-- `ExecutionAgent._execute_buy` (execution_agent.py, lines 187-225).
`ctx` is the bound user portfolio (`none` when `self.user_id` or
`self.db_session` is unset); a ledger `ValueError` is caught and turned
into a FAILED outcome, the ledger left as it was. -/
def executeBuy (ctx : Option Portfolio) (sym : String) (price : ℚ)
    (quantity : ℕ) (now : ℤ) : Option Portfolio × ExecOutcome :=
  match ctx with
  | none =>
    (none, { action_taken := "rejected", status := .FAILED,
             reason := some .noPortfolioConfigured })
  | some p =>
    match buyStock p sym quantity price now with
    | .ok (p', res) =>
      (some p', { action_taken := "buy", status := .EXECUTED,
                  shares := quantity, total := res.total_cost,
                  remaining_capital := res.remaining_cash })
    | .error e =>
      (some p, { action_taken := "rejected", status := .FAILED,
                 reason := some (.ledgerRejected e) })

/-- `ExecutionAgent._execute_sell` (execution_agent.py, lines 227-295).
The quantity sold is read from the held position, not chosen by the
caller; with no position the outcome is FAILED and the ledger is not
touched. -/
def executeSell (ctx : Option Portfolio) (sym : String) (price : ℚ)
    (now : ℤ) : Option Portfolio × ExecOutcome :=
  match ctx with
  | none =>
    (none, { action_taken := "rejected", status := .FAILED,
             reason := some .noPortfolioConfigured })
  | some p =>
    match p.positions.lookup sym with
    | none =>
      (some p, { action_taken := "rejected", status := .FAILED,
                 reason := some .noPositionToSell })
    | some pos =>
      match sellStock p sym pos.shares price now with
      | .ok (p', res) =>
        (some p', { action_taken := "sell", status := .EXECUTED,
                    shares := pos.shares, avg_entry_price := pos.avg_price,
                    exit_price := price, total := res.total_revenue,
                    profit_loss := res.profit_loss,
                    profit_loss_percent := res.profit_loss_pct,
                    remaining_capital := res.remaining_cash })
      | .error e =>
        (some p, { action_taken := "rejected", status := .FAILED,
                   reason := some (.ledgerRejected e) })

/-- Helper: a deleted key is gone. -/
theorem lookup_removePosition_self (ps : List (String × Position))
    (sym : String) : (removePosition ps sym).lookup sym = none := by
  unfold removePosition
  induction ps with
  | nil => simp
  | cons kv tl ih =>
    obtain ⟨k, v⟩ := kv
    by_cases hk : k = sym
    · simpa [hk] using ih
    · have hbeq : (sym == k) = false :=
        beq_eq_false_iff_ne.mpr (Ne.symm hk)

      simp [List.filter_cons, hk, List.lookup_cons, hbeq, ih]
      exact fun a b _ h h' => h h'.symm

/-- C3: selling with no held position yields a FAILED record with a
no-position reason and leaves the ledger untouched; selling with a held
position sells the entire position (quantity read from the position),
removes it, credits cash with the proceeds, and reports
profit_loss = proceeds − avg_price × shares with its percentage over the
cost basis. -/
theorem execute_sell_spec (p : Portfolio) (sym : String) (price : ℚ)
    (now : ℤ) :
    (p.positions.lookup sym = none →
      executeSell (some p) sym price now
        = (some p, { action_taken := "rejected", status := .FAILED,
                     reason := some .noPositionToSell })) ∧
    (∀ pos, p.positions.lookup sym = some pos →
      ∃ p' res, sellStock p sym pos.shares price now = .ok (p', res) ∧
        (executeSell (some p) sym price now).1 = some p' ∧
        (executeSell (some p) sym price now).2.shares = pos.shares ∧
        (executeSell (some p) sym price now).2.status = .EXECUTED ∧
        res.shares = pos.shares ∧
        p'.positions.lookup sym = none ∧
        p'.cash = p.cash + pos.shares * price ∧
        p'.transactions = p.transactions ++
          [{ type := "SELL", symbol := sym, shares := pos.shares,
             price := price, total := pos.shares * price,
             profit_loss := some res.profit_loss,
             profit_loss_pct := some res.profit_loss_pct,
             timestamp := now }] ∧
        res.profit_loss = pos.shares * price - pos.shares * pos.avg_price ∧
        res.profit_loss_pct
          = res.profit_loss / (pos.shares * pos.avg_price) * 100) := by
  constructor
  · intro hnone
    simp [executeSell, hnone]
  · intro pos hpos
    have hEq : sellStock p sym pos.shares price now = .ok
        ({ cash := p.cash + pos.shares * price,
           positions := removePosition p.positions sym,
           transactions := p.transactions ++
             [{ type := "SELL", symbol := sym, shares := pos.shares,
                price := price, total := pos.shares * price,
                profit_loss := some (pos.shares * price
                  - pos.shares * pos.avg_price),
                profit_loss_pct := some ((pos.shares * price
                  - pos.shares * pos.avg_price)
                  / (pos.shares * pos.avg_price) * 100),
                timestamp := now }] },
         { shares := pos.shares, price := price,
           total_revenue := pos.shares * price,
           profit_loss := pos.shares * price - pos.shares * pos.avg_price,
           profit_loss_pct := (pos.shares * price
             - pos.shares * pos.avg_price)
             / (pos.shares * pos.avg_price) * 100,
           remaining_cash := p.cash + pos.shares * price }) := by
      simp [sellStock, hpos]
    refine ⟨_, _, hEq, ?_, ?_, ?_, rfl, lookup_removePosition_self _ _,
      rfl, rfl, rfl, rfl⟩ <;>
      simp [executeSell, hpos, hEq]

/-- Witness for C3: a portfolio holding 10 AAPL at $100 sells at $120 for
a $200 gain (20% of cost basis) and ends with no AAPL position; a
portfolio without the position fails with the no-position reason,
unchanged. -/
theorem execute_sell_spec_witness :
    let pEmpty : Portfolio :=
      { cash := 500, positions := [], transactions := [] }
    let pHeld : Portfolio :=
      { cash := 500,
        positions :=
          [("AAPL", { shares := 10, avg_price := 100, buy_date := 0 })],
        transactions := [] }
    (executeSell (some pEmpty) "AAPL" 120 7
      = (some pEmpty,
         { action_taken := "rejected", status := .FAILED,
           reason := some .noPositionToSell })) ∧
    (∃ p' res, sellStock pHeld "AAPL"
        (Position.shares { shares := 10, avg_price := 100, buy_date := 0 })
        120 7 = .ok (p', res) ∧
      (executeSell (some pHeld) "AAPL" 120 7).1 = some p' ∧
      (executeSell (some pHeld) "AAPL" 120 7).2.shares
        = Position.shares { shares := 10, avg_price := 100, buy_date := 0 } ∧
      (executeSell (some pHeld) "AAPL" 120 7).2.status = .EXECUTED ∧
      res.shares
        = Position.shares { shares := 10, avg_price := 100, buy_date := 0 } ∧
      p'.positions.lookup "AAPL" = none ∧
      p'.cash = pHeld.cash + (10:ℕ) * (120:ℚ) ∧
      p'.transactions = pHeld.transactions ++
        [{ type := "SELL", symbol := "AAPL", shares := 10,
           price := 120, total := (10:ℕ) * (120:ℚ),
           profit_loss := some res.profit_loss,
           profit_loss_pct := some res.profit_loss_pct,
           timestamp := 7 }] ∧
      res.profit_loss = (10:ℕ) * (120:ℚ) - (10:ℕ) * (100:ℚ) ∧
      res.profit_loss_pct
        = res.profit_loss / ((10:ℕ) * (100:ℚ)) * 100) :=
  ⟨(execute_sell_spec
      { cash := 500, positions := [], transactions := [] }
      "AAPL" 120 7).1 rfl,
   (execute_sell_spec
      { cash := 500,
        positions :=
          [("AAPL", { shares := 10, avg_price := 100, buy_date := 0 })],
        transactions := [] }
      "AAPL" 120 7).2
     { shares := 10, avg_price := 100, buy_date := 0 }
     (by norm_num [List.lookup])⟩

/-- The decision dict keys `execute_decision` and the feedback tracker
read. -/
structure DecisionInput where
  symbol : String
  decision : String
  confidence : ℚ
  predicted_change : ℚ
  deriving DecidableEq, Repr

/-- A `pending_feedback` entry as built by
`ExecutionAgent._schedule_feedback_tracking` (execution_agent.py,
lines 297-314): check_date is one day after the execution date. -/
structure PendingFeedback where
  symbol : String
  decision : DecisionInput
  execution_date : ℤ
  check_date : ℤ
  checked : Bool
  deriving DecidableEq, Repr

/-- The execution record `execute_decision` returns: its base keys plus
the keys merged in from the buy/sell/HOLD outcome (`result.update(...)`);
the merged `status` overwrites the initial EXECUTED. -/
structure ExecutionRecord where
  symbol : String
  action : String
  price : ℚ
  confidence : ℚ
  timestamp : ℤ
  status : OrderStatus
  outcome : ExecOutcome
  deriving DecidableEq, Repr

/-- `ExecutionAgent.execute_decision` (execution_agent.py, lines 111-159)
over the bound portfolio `ctx` and the `pending_feedback` list: sizes the
position, dispatches to the BUY/SELL/HOLD handler, and — for BUY and SELL
actions, whatever status the handler reported — appends exactly one
unchecked pending-feedback entry with check_date = now + 1 day. -/
def executeDecision (ctx : Option Portfolio)
    (pending : List PendingFeedback) (decision : DecisionInput)
    (current_price : ℚ) (now : ℤ) :
    Option Portfolio × List PendingFeedback × ExecutionRecord :=
  let position_size :=
    calculatePositionSize (ctx.map Portfolio.cash) decision.confidence
      current_price
  let handled : Option Portfolio × ExecOutcome :=
    if decision.decision = "BUY" then
      executeBuy ctx decision.symbol current_price position_size.toNat now
    else if decision.decision = "SELL" then
      executeSell ctx decision.symbol current_price now
    else
      (ctx, { action_taken := "none", status := .EXECUTED,
              reason := some .holdNoTrade })
  let record : ExecutionRecord :=
    { symbol := decision.symbol, action := decision.decision,
      price := current_price, confidence := decision.confidence,
      timestamp := now, status := handled.2.status, outcome := handled.2 }
  let pending' :=
    if decision.decision = "BUY" ∨ decision.decision = "SELL" then
      pending ++
        [{ symbol := decision.symbol, decision := decision,
           execution_date := now, check_date := now + 1, checked := false }]
    else
      pending
  (handled.1, pending', record)

/-- C10: every BUY or SELL execution — including ones whose handler
reports a FAILED rejection — appends exactly one pending-feedback entry,
unchecked, with check_date one day after execution. -/
theorem execute_decision_schedules_feedback (ctx : Option Portfolio)
    (pending : List PendingFeedback) (decision : DecisionInput)
    (price : ℚ) (now : ℤ)
    (h : decision.decision = "BUY" ∨ decision.decision = "SELL") :
    (executeDecision ctx pending decision price now).2.1
      = pending ++
        [{ symbol := decision.symbol, decision := decision,
           execution_date := now, check_date := now + 1,
           checked := false }] ∧
    (executeDecision ctx pending decision price now).2.1.length
      = pending.length + 1 ∧
    ∀ e, e ∈ (executeDecision ctx pending decision price now).2.1.drop
        pending.length →
      e.checked = false ∧ e.check_date = now + 1 := by
  have hp : (executeDecision ctx pending decision price now).2.1
      = pending ++
        [{ symbol := decision.symbol, decision := decision,
           execution_date := now, check_date := now + 1,
           checked := false }] := by
    simp only [executeDecision, if_pos h]
  refine ⟨hp, ?_, ?_⟩
  · rw [hp]; simp
  · intro e he
    rw [hp, List.drop_append_of_le_length le_rfl] at he
    simp at he
    simp [he]

/-- Witness for C10: with no bound portfolio a BUY is rejected (FAILED),
yet a pending-feedback entry is still scheduled. -/
theorem execute_decision_schedules_feedback_witness :
    let dec : DecisionInput :=
      { symbol := "AAPL", decision := "BUY", confidence := 6/10,
        predicted_change := 2 }
    (executeDecision none [] dec 50 0).2.2.status = OrderStatus.FAILED ∧
    ((executeDecision none [] dec 50 0).2.1
      = [] ++
        [{ symbol := dec.symbol, decision := dec, execution_date := 0,
           check_date := 0 + 1, checked := false }] ∧
     (executeDecision none [] dec 50 0).2.1.length
       = List.length ([] : List PendingFeedback) + 1 ∧
     ∀ e, e ∈ (executeDecision none [] dec 50 0).2.1.drop
         (List.length ([] : List PendingFeedback)) →
       e.checked = false ∧ e.check_date = 0 + 1) :=
  ⟨by norm_num [executeDecision, executeBuy],
   execute_decision_schedules_feedback none []
     { symbol := "AAPL", decision := "BUY", confidence := 6/10,
       predicted_change := 2 } 50 0 (Or.inl rfl)⟩

/-- A `Feedback` record as assembled by
`ExecutionAgent.check_pending_feedback`. -/
structure Feedback where
  symbol : String
  predicted_change : ℚ
  actual_change : ℚ
  prediction_error : ℚ
  is_accurate : Bool
  timestamp : ℤ
  deriving DecidableEq, Repr

/-- `ExecutionAgent._get_actual_outcome` (execution_agent.py,
lines 380-419).  `bars sym d` is the close of the first stored bar of
`sym` dated on or after `d` (the `StockPrice.date >= d` query ordered by
date ascending, limit 1); `none` models the raised `ValueError` when a
required row is missing. -/
def getActualOutcome (bars : String → ℤ → Option ℚ) (sym : String)
    (start_date end_date : ℤ) : Option ℚ :=
  match bars sym start_date, bars sym end_date with
  | some s, some e => some ((e - s) / s * 100)
  | _, _ => none

/-- The body of the `check_pending_feedback` loop
(execution_agent.py, lines 316-378) for one tracking entry: skip if
already checked or not yet due; on a missing price row the exception is
caught and the entry left untouched; otherwise mark checked and emit the
feedback record. -/
def processPendingEntry (bars : String → ℤ → Option ℚ) (now : ℤ)
    (t : PendingFeedback) : PendingFeedback × Option Feedback :=
  if t.checked then (t, none)
  else if now < t.check_date then (t, none)
  else
    match getActualOutcome bars t.symbol t.execution_date t.check_date with
    | none => (t, none)
    | some actual_change =>
      let predicted_change := t.decision.predicted_change
      let prediction_error := |predicted_change - actual_change|
      ({ t with checked := true },
       some { symbol := t.symbol, predicted_change := predicted_change,
              actual_change := actual_change,
              prediction_error := prediction_error,
              is_accurate := decide (prediction_error < 3),
              timestamp := now })

/-- `ExecutionAgent.check_pending_feedback`: each entry of the pending
list is processed independently; the entries are updated in place and the
emitted feedback records collected in order. -/
def checkPendingFeedback (bars : String → ℤ → Option ℚ) (now : ℤ)
    (pending : List PendingFeedback) :
    List PendingFeedback × List Feedback :=
  (pending.map (fun t => (processPendingEntry bars now t).1),
   pending.filterMap (fun t => (processPendingEntry bars now t).2))

/-- C5: a run strictly before an entry's check_date leaves it unchecked
and emits nothing; a run at or after check_date with both closes found
marks it checked and emits exactly one feedback with
actual = (end−start)/start×100, error = |predicted − actual| and
is_accurate ⇔ error < 3; an already-checked entry is skipped; a missing
price row leaves the entry unchecked for a later run; and the scan
processes every entry independently. -/
theorem pending_feedback_spec (bars : String → ℤ → Option ℚ) (now : ℤ)
    (t : PendingFeedback) (l : List PendingFeedback) :
    (t.checked = false → now < t.check_date →
      processPendingEntry bars now t = (t, none)) ∧
    (t.checked = true → processPendingEntry bars now t = (t, none)) ∧
    (∀ s e, t.checked = false → t.check_date ≤ now →
      bars t.symbol t.execution_date = some s →
      bars t.symbol t.check_date = some e →
      processPendingEntry bars now t =
        ({ t with checked := true },
         some { symbol := t.symbol,
                predicted_change := t.decision.predicted_change,
                actual_change := (e - s) / s * 100,
                prediction_error :=
                  |t.decision.predicted_change - (e - s) / s * 100|,
                is_accurate := decide
                  (|t.decision.predicted_change - (e - s) / s * 100| < 3),
                timestamp := now }) ∧
      (processPendingEntry bars now { t with checked := true }).2 = none) ∧
    (t.checked = false → t.check_date ≤ now →
      (bars t.symbol t.execution_date = none ∨
       bars t.symbol t.check_date = none) →
      processPendingEntry bars now t = (t, none)) ∧
    (checkPendingFeedback bars now l).1.length = l.length ∧
    (∀ i, (checkPendingFeedback bars now l).1.get? i
      = (l.get? i).map (fun u => (processPendingEntry bars now u).1)) ∧
    (∀ fb, fb ∈ (checkPendingFeedback bars now l).2 →
      (fb.is_accurate = true ↔ fb.prediction_error < 3)) := by
  refine ⟨?_, ?_, ?_, ?_, ?_, ?_, ?_⟩
  · intro hc hlt
    simp [processPendingEntry, hc, hlt]
  · intro hc
    simp [processPendingEntry, hc]
  · intro s e hc hle hs he
    have hnot : ¬ now < t.check_date := not_lt.mpr hle
    constructor
    · simp [processPendingEntry, hc, hnot, getActualOutcome, hs, he]
    · simp [processPendingEntry]
  · intro hc hle hmiss
    have hnot : ¬ now < t.check_date := not_lt.mpr hle
    rcases hmiss with hm | hm <;>
      simp [processPendingEntry, hc, hnot, getActualOutcome, hm] <;>
      cases bars t.symbol t.execution_date <;>
      cases bars t.symbol t.check_date <;> simp_all
  · simp [checkPendingFeedback]
  · intro i
    simp [checkPendingFeedback, List.get?_map]
  · intro fb hfb
    simp only [checkPendingFeedback, List.mem_filterMap] at hfb
    obtain ⟨u, _, hu⟩ := hfb
    by_cases h1 : u.checked
    · simp [processPendingEntry, h1] at hu
    · by_cases h2 : now < u.check_date
      · simp [processPendingEntry, h1, h2] at hu
      · cases hout :
          getActualOutcome bars u.symbol u.execution_date u.check_date with
        | none => simp [processPendingEntry, h1, h2, hout] at hu
        | some ac =>
          simp only [processPendingEntry, h1, h2, hout, if_false,
            Bool.false_eq_true, if_neg h2, Option.some.injEq] at hu
          rw [← hu]
          simp [decide_eq_true_iff]

/-- Witness for C5 on a concrete entry and bar source: due at now = 1
with closes 100 → 105, the entry is marked checked and the feedback has
actual_change 5%, error 3%, is_accurate false. -/
theorem pending_feedback_spec_witness :
    let dec : DecisionInput :=
      { symbol := "AAPL", decision := "BUY", confidence := 6/10,
        predicted_change := 2 }
    let t : PendingFeedback :=
      { symbol := "AAPL", decision := dec, execution_date := 0,
        check_date := 1, checked := false }
    let bars : String → ℤ → Option ℚ := fun _ d =>
      if d ≤ 0 then some 100 else some 105
    processPendingEntry bars 1 t =
      ({ t with checked := true },
       some { symbol := "AAPL", predicted_change := 2,
              actual_change := ((105:ℚ) - 100) / 100 * 100,
              prediction_error := |(2:ℚ) - (105 - 100) / 100 * 100|,
              is_accurate :=
                decide (|(2:ℚ) - (105 - 100) / 100 * 100| < 3),
              timestamp := 1 }) ∧
    (processPendingEntry bars 1
      { symbol := "AAPL",
        decision := { symbol := "AAPL", decision := "BUY",
                      confidence := 6/10, predicted_change := 2 },
        execution_date := 0, check_date := 1, checked := true }).2 = none :=
  ((pending_feedback_spec
      (fun _ d => if d ≤ 0 then some 100 else some 105) 1
      { symbol := "AAPL",
        decision := { symbol := "AAPL", decision := "BUY",
                      confidence := 6/10, predicted_change := 2 },
        execution_date := 0, check_date := 1, checked := false }
      []).2.2.1 100 105 rfl (by norm_num)
      (by norm_num) (by norm_num))

/-- The per-symbol outcome of a pipeline stage: either the stage's value,
or the error-tagged dict (`{"symbol": ..., "status": "error"/"failed",
"error": msg}`) the stage's `except` clause appends instead. -/
inductive StageResult (α : Type) where
  | ok (value : α)
  | errorTagged (symbol : String) (message : String)
  deriving DecidableEq, Repr

/-- `TradingCoordinator._market_analysis` (coordinator.py, lines
123-148): each symbol is analyzed inside its own try/except; `analyze`
models `predict_price_movement` with `Except.error` standing for a raised
exception. -/
def marketAnalysis {α : Type} (analyze : String → Except String α)
    (symbols : List String) : List (StageResult α) :=
  symbols.map (fun s =>
    match analyze s with
    | .ok p => .ok p
    | .error e => .errorTagged s e)

/-- `TradingCoordinator._execute_trades` (coordinator.py, lines 153-200):
for each decision, the latest stored close is looked up (a missing one
yields a failed result for that symbol) and the execution runs inside its
own try/except. -/
def executeTrades {β γ : Type} (getSymbol : β → String)
    (getLatestClose : String → Option ℚ)
    (exec : β → ℚ → Except String γ) (decisions : List β) :
    List (StageResult γ) :=
  decisions.map (fun d =>
    match getLatestClose (getSymbol d) with
    | none => .errorTagged (getSymbol d) "No price data available"
    | some price =>
      match exec d price with
      | .ok r => .ok r
      | .error e => .errorTagged (getSymbol d) e)

/-- The counts `_generate_cycle_summary` aggregates. -/
structure CycleSummary where
  stocks_analyzed : ℕ
  buy_count : ℕ
  sell_count : ℕ
  hold_count : ℕ
  feedback_items_processed : ℕ
  deriving DecidableEq, Repr

/-- The trading-session record `run_trading_cycle` appends and returns. -/
structure TradingSession (α β γ : Type) where
  symbols : List String
  predictions : List (StageResult α)
  decisions : List β
  executions : List (StageResult γ)
  summary : CycleSummary
  deriving DecidableEq

/-- `TradingCoordinator.run_trading_cycle` (coordinator.py, lines
49-121), abstracted over the per-symbol stage functions: `decideOne`
models `make_decision` as run under `analyze_portfolio`'s per-prediction
try/except (hence total), `actionOf` reads the decision dict's
`"decision"` key for the summary counts, and `n_feedback` is the length
of the resolved-feedback list of step 4. -/
def runTradingCycle {α β γ : Type} (analyze : String → Except String α)
    (decideOne : StageResult α → β) (getSymbol : β → String)
    (actionOf : β → String) (getLatestClose : String → Option ℚ)
    (exec : β → ℚ → Except String γ) (n_feedback : ℕ)
    (symbols : List String) : TradingSession α β γ :=
  let predictions := marketAnalysis analyze symbols
  let decisions := predictions.map decideOne
  let executions := executeTrades getSymbol getLatestClose exec decisions
  { symbols := symbols, predictions := predictions,
    decisions := decisions, executions := executions,
    summary :=
      { stocks_analyzed := predictions.length,
        buy_count :=
          (decisions.filter (fun d => actionOf d == "BUY")).length,
        sell_count :=
          (decisions.filter (fun d => actionOf d == "SELL")).length,
        hold_count :=
          (decisions.filter (fun d => actionOf d == "HOLD")).length,
        feedback_items_processed := n_feedback } }

/-- C6: a trading cycle always returns a session record whose summary
covers every requested symbol; an exception while analyzing or executing
one symbol becomes an error-tagged result at that symbol's position only,
and every other symbol is still carried through all stages. -/
theorem trading_cycle_isolation {α β γ : Type}
    (analyze : String → Except String α) (decideOne : StageResult α → β)
    (getSymbol : β → String) (actionOf : β → String)
    (getLatestClose : String → Option ℚ)
    (exec : β → ℚ → Except String γ) (n_feedback : ℕ)
    (symbols : List String) :
    (runTradingCycle analyze decideOne getSymbol actionOf getLatestClose
        exec n_feedback symbols).predictions.length = symbols.length ∧
    (runTradingCycle analyze decideOne getSymbol actionOf getLatestClose
        exec n_feedback symbols).decisions.length = symbols.length ∧
    (runTradingCycle analyze decideOne getSymbol actionOf getLatestClose
        exec n_feedback symbols).executions.length = symbols.length ∧
    (runTradingCycle analyze decideOne getSymbol actionOf getLatestClose
        exec n_feedback symbols).summary.stocks_analyzed
      = symbols.length ∧
    (∀ i s, symbols.get? i = some s →
      (∀ m, analyze s = .error m →
        (runTradingCycle analyze decideOne getSymbol actionOf
            getLatestClose exec n_feedback symbols).predictions.get? i
          = some (.errorTagged s m)) ∧
      (∀ p, analyze s = .ok p →
        (runTradingCycle analyze decideOne getSymbol actionOf
            getLatestClose exec n_feedback symbols).predictions.get? i
          = some (.ok p))) ∧
    (∀ i d,
      (runTradingCycle analyze decideOne getSymbol actionOf getLatestClose
          exec n_feedback symbols).decisions.get? i = some d →
      (getLatestClose (getSymbol d) = none →
        (runTradingCycle analyze decideOne getSymbol actionOf
            getLatestClose exec n_feedback symbols).executions.get? i
          = some (.errorTagged (getSymbol d)
              "No price data available")) ∧
      (∀ price m, getLatestClose (getSymbol d) = some price →
        exec d price = .error m →
        (runTradingCycle analyze decideOne getSymbol actionOf
            getLatestClose exec n_feedback symbols).executions.get? i
          = some (.errorTagged (getSymbol d) m)) ∧
      (∀ price r, getLatestClose (getSymbol d) = some price →
        exec d price = .ok r →
        (runTradingCycle analyze decideOne getSymbol actionOf
            getLatestClose exec n_feedback symbols).executions.get? i
          = some (.ok r))) := by
  refine ⟨?_, ?_, ?_, ?_, ?_, ?_⟩
  · simp [runTradingCycle, marketAnalysis]
  · simp [runTradingCycle, marketAnalysis]
  · simp [runTradingCycle, marketAnalysis, executeTrades]
  · simp [runTradingCycle, marketAnalysis]
  · intro i s hs
    constructor
    · intro m hm
      show ((symbols.map _).get? i) = _
      rw [List.get?_map, hs]
      simp [hm]
    · intro p hp
      show ((symbols.map _).get? i) = _
      rw [List.get?_map, hs]
      simp [hp]
  · intro i d hd
    simp only [runTradingCycle] at hd
    rw [List.get?_map] at hd
    cases ha : (marketAnalysis analyze symbols).get? i with
    | none => rw [ha] at hd; simp at hd
    | some a =>
      rw [ha] at hd
      simp only [Option.map_some', Option.some.injEq] at hd
      refine ⟨?_, ?_, ?_⟩
      · intro hnone
        show ((List.map _ (List.map _ _)).get? i) = _
        rw [List.get?_map, List.get?_map, ha]
        simp [hd, hnone]
      · intro price m hprice hm
        show ((List.map _ (List.map _ _)).get? i) = _
        rw [List.get?_map, List.get?_map, ha]
        simp [hd, hprice, hm]
      · intro price r hprice hr
        show ((List.map _ (List.map _ _)).get? i) = _
        rw [List.get?_map, List.get?_map, ha]
        simp [hd, hprice, hr]

/-- Witness for C6: a two-symbol cycle where analysis of "BAD" raises and
"GOOD" succeeds — the session still covers both symbols, "BAD" is
error-tagged at its position and "GOOD" is processed through all
stages. -/
theorem trading_cycle_isolation_witness :
    let analyze : String → Except String ℚ := fun s =>
      if s = "BAD" then .error "boom" else .ok 42
    let decideOne : StageResult ℚ → String := fun r =>
      match r with
      | .ok _ => "GOOD"
      | .errorTagged s _ => s
    let cyc := runTradingCycle analyze decideOne id (fun _ => "HOLD")
      (fun _ => some 10) (fun _ _ => .ok 0) 0 ["BAD", "GOOD"]
    cyc.predictions.length = 2 ∧ cyc.summary.stocks_analyzed = 2 ∧
    (cyc.predictions.get? 0 = some (.errorTagged "BAD" "boom")) ∧
    (cyc.predictions.get? 1 = some (.ok 42)) ∧
    (cyc.executions.get? 1 = some (.ok 0)) := by
  have h := trading_cycle_isolation
    (fun s => if s = "BAD" then .error "boom" else .ok (42:ℚ))
    (fun r => match r with
      | .ok _ => "GOOD"
      | .errorTagged s _ => s)
    id (fun _ => "HOLD") (fun _ => some 10)
    (fun (_ : String) (_ : ℚ) => .ok (0:ℕ)) 0 ["BAD", "GOOD"]
  refine ⟨?_, ?_, ?_, ?_, ?_⟩
  · exact h.1
  · exact h.2.2.2.1
  · exact ((h.2.2.2.2.1 0 "BAD" rfl).1 "boom" rfl)
  · exact ((h.2.2.2.2.1 1 "GOOD" rfl).2 42 rfl)
  · exact (h.2.2.2.2.2 1 "GOOD" (by rfl)).2.2 10 0 rfl rfl

end Trading
